import Mathlib

/-!
A shallow embedding of the geometry and style resolvers of the HTML2PPTX
class (src/HTML2PPTX.js), together with theorems checking the repository's
specification against that code.  JS numbers are modelled as rationals;
style or attribute values whose `parseFloat` is NaN (missing attributes,
garbage strings) are modelled as `none` in `Option ℚ`; DOM objects (rects,
matrices, computed styles) are modelled as records of exactly the fields
the code reads, and the pptxgen emission layer by the option records the
code hands to it.
-/

namespace HTML2PPTX

/-- JS `a || b` on numbers: `b` when `a` is `0` (falsy), otherwise `a`. -/
def jsOr (a b : ℚ) : ℚ := if a = 0 then b else a

/-- `Number.EPSILON`, i.e. 2 to the power of minus 52. -/
def epsJS : ℚ := 1 / 2 ^ 52

/-- ECMAScript `Math.round`: the nearest integer, ties toward positive
infinity, which on exact rationals is the floor of the value plus one half. -/
def jsMathRound (value : ℚ) : ℤ := ⌊value + 1 / 2⌋

/-- `#round` (src line 1177-1179): `Math.round((value ?? 0) + Number.EPSILON)`;
the `?? 0` coalescing is dead in this model since inputs are always numbers. -/
def jsRound (value : ℚ) : ℤ := jsMathRound (value + epsJS)

/-- `Number.prototype.toFixed(2)` as used for the percent override strings
(src lines 790, 793, 1350, 1354): the `"<p>%"` string is modelled by its
numeric content, the input rounded to two decimals (ties toward the larger
value, per the ECMAScript `toFixed` specification). -/
def toFixed2 (value : ℚ) : ℚ := (⌊value * 100 + 1 / 2⌋ : ℚ) / 100

/-- `Number.isFinite` on the rational model of a JS number: every modelled
value is finite (non-finite parses are mapped to `none` or to defaults at
the input boundary, never producing a non-finite rational). -/
def jsIsFinite (_value : ℚ) : Bool := true

/-- `PX_PER_IN` (src line 1504). -/
def PX_PER_IN : ℚ := 96

/-- `EMU_PER_IN` (src line 1513). -/
def EMU_PER_IN : ℚ := 914400

/-- `PX_TO_EMU` (src line 1522). -/
def PX_TO_EMU : ℚ := EMU_PER_IN / PX_PER_IN

/-- `STROKE_LIMIT` (src line 23): minimum visible stroke width in EMU. -/
def STROKE_LIMIT : ℤ := 9525

/-- `SVG_ELEMENTS` (src line 32): tag names treated as vector primitives. -/
def SVG_ELEMENTS : List String := ["TEXT", "RECT", "G"]

/-- `#pxToPoints` (src line 1153); its NaN guard is the identity here
because non-finite inputs cannot arise in the rational model. -/
def pxToPoints (px : ℚ) : ℚ := px * 72 / PX_PER_IN

/-- `#pxToEmu` (src line 1165). -/
def pxToEmu (px : ℚ) : ℤ := jsRound (px * PX_TO_EMU)

/-- The `coordinateSpace` tag carried by an element rectangle. -/
inductive CoordinateSpace
  | svg
  | screen
deriving DecidableEq

/-- An element bounding rectangle as consumed by `#rectToSlideMetrics`;
the `left`/`top`/`right`/`bottom` fallbacks of the source (lines 1216-1226)
are not modelled because the embedding always supplies `x`, `y`, `width`,
`height`, and the `?? 'screen'` default is the caller supplying `screen`. -/
structure ElementRect where
  x : ℚ
  y : ℚ
  width : ℚ
  height : ℚ
  coordinateSpace : CoordinateSpace
deriving DecidableEq

/-- The svg root's bounding client rect (`context.svgRect`), with the
`x ?? left` field fallbacks likewise collapsed into plain fields. -/
structure DomRect where
  x : ℚ
  y : ℚ
  width : ℚ
  height : ℚ
deriving DecidableEq

/-- Normalized viewBox data (the output shape of `#getViewBox`). -/
structure ViewBox where
  minX : ℚ
  minY : ℚ
  width : ℚ
  height : ℚ
deriving DecidableEq

/-- The `slideSizing` option: `'fit'` or `'viewport'`. -/
inductive SlideSizing
  | fit
  | viewport
deriving DecidableEq

/-- The per-slide rendering context fields read by the geometry code. -/
structure SlideContext where
  svgRect : DomRect
  viewBox : ViewBox
  slideSizing : SlideSizing

/-- The exporter instance fields read by the geometry code
(`slideWidthEmu`, `slideHeightEmu`, constructor lines 100-101). -/
structure Exporter where
  slideWidthEmu : ℚ
  slideHeightEmu : ℚ

/-- Slide metrics produced by `#rectToSlideMetrics` and `#normalizeMetrics`:
absolute EMU coordinates plus the optional viewport-percent bookkeeping
numbers and the percent override strings (modelled by their numeric value). -/
structure SlideMetrics where
  x : ℤ
  y : ℤ
  w : ℤ
  h : ℤ
  viewportPercentX : Option ℚ
  viewportPercentY : Option ℚ
  xPercent : Option ℚ
  yPercent : Option ℚ
deriving DecidableEq

/-- `#rectToSlideMetrics` (src lines 1212-1293). -/
def rectToSlideMetrics (self : Exporter) (rect : ElementRect) (context : SlideContext) :
    SlideMetrics :=
  let svgRect := context.svgRect
  let viewBox := context.viewBox
  let safeDomWidth := jsOr svgRect.width 1
  let safeDomHeight := jsOr svgRect.height 1
  let rectX := rect.x
  let rectY := rect.y
  let svgX := svgRect.x
  let svgY := svgRect.y
  let rectWidth := rect.width
  let rectHeight := rect.height
  let rectSpace := rect.coordinateSpace
  let safeViewWidth := jsOr (jsOr viewBox.width safeDomWidth) 1
  let safeViewHeight := jsOr (jsOr viewBox.height safeDomHeight) 1
  let viewMinX := viewBox.minX
  let viewMinY := viewBox.minY
  if context.slideSizing = SlideSizing.viewport then
    let viewWidth := jsOr (jsOr viewBox.width safeDomWidth) 1
    let viewHeight := jsOr (jsOr viewBox.height safeDomHeight) 1
    let viewX :=
      if rectSpace = CoordinateSpace.svg then rectX
      else ((rectX - svgX) / safeDomWidth) * viewWidth + viewMinX
    let viewY :=
      if rectSpace = CoordinateSpace.svg then rectY
      else ((rectY - svgY) / safeDomHeight) * viewHeight + viewMinY
    let viewW :=
      if rectSpace = CoordinateSpace.svg then rectWidth
      else (rectWidth / safeDomWidth) * viewWidth
    let viewH :=
      if rectSpace = CoordinateSpace.svg then rectHeight
      else (rectHeight / safeDomHeight) * viewHeight
    let percentX := (viewX - viewMinX) / viewWidth
    let percentY := (viewY - viewMinY) / viewHeight
    { x := jsRound (percentX * self.slideWidthEmu)
      y := jsRound (percentY * self.slideHeightEmu)
      w := jsRound ((viewW / viewWidth) * self.slideWidthEmu)
      h := jsRound ((viewH / viewHeight) * self.slideHeightEmu)
      viewportPercentX := some percentX
      viewportPercentY := some percentY
      xPercent := none
      yPercent := none }
  else
    let viewX :=
      if rectSpace = CoordinateSpace.svg then rectX - viewMinX
      else ((rectX - svgX) / safeDomWidth) * safeViewWidth
    let viewY :=
      if rectSpace = CoordinateSpace.svg then rectY - viewMinY
      else ((rectY - svgY) / safeDomHeight) * safeViewHeight
    let viewW :=
      if rectSpace = CoordinateSpace.svg then rectWidth
      else (rectWidth / safeDomWidth) * safeViewWidth
    let viewH :=
      if rectSpace = CoordinateSpace.svg then rectHeight
      else (rectHeight / safeDomHeight) * safeViewHeight
    { x := jsRound ((viewX / safeViewWidth) * self.slideWidthEmu)
      y := jsRound ((viewY / safeViewHeight) * self.slideHeightEmu)
      w := jsRound ((viewW / safeViewWidth) * self.slideWidthEmu)
      h := jsRound ((viewH / safeViewHeight) * self.slideHeightEmu)
      viewportPercentX := none
      viewportPercentY := none
      xPercent := none
      yPercent := none }

/-- `#normalizeMetrics` (src lines 1346-1358): in viewport mode, an axis
whose rounded absolute coordinate is negative is replaced by a percent
override string and a zero absolute coordinate.  The source's early return
`if (context.slideSizing !== 'viewport') return metrics` is rendered as the
else branch of the equivalent positive conditional. -/
def normalizeMetrics (metrics : SlideMetrics) (context : SlideContext) : SlideMetrics :=
  if context.slideSizing = SlideSizing.viewport then
    let withX :=
      match metrics.viewportPercentX with
      | some p =>
          if metrics.x < 0 then
            { metrics with xPercent := some (toFixed2 (p * 100)), x := 0 }
          else metrics
      | none => metrics
    match metrics.viewportPercentY with
    | some p =>
        if metrics.y < 0 then
          { withX with yPercent := some (toFixed2 (p * 100)), y := 0 }
        else withX
    | none => withX
  else metrics

/-- The geometry resolver as invoked by `#renderElement` (src lines 321-324):
`#normalizeMetrics` applied to the output of `#rectToSlideMetrics`. -/
def resolveMetrics (self : Exporter) (rect : ElementRect) (context : SlideContext) :
    SlideMetrics :=
  normalizeMetrics (rectToSlideMetrics self rect context) context

/-- The x-axis percent ratio computed by the viewport branch of
`#rectToSlideMetrics` (src lines 1246-1255), extracted as a function so
that theorems can speak about "the computed ratio" of the spec. -/
def viewportPercentRatioX (rect : ElementRect) (svgRect : DomRect) (viewBox : ViewBox) : ℚ :=
  let safeDomWidth := jsOr svgRect.width 1
  let viewWidth := jsOr (jsOr viewBox.width safeDomWidth) 1
  let viewX :=
    if rect.coordinateSpace = CoordinateSpace.svg then rect.x
    else ((rect.x - svgRect.x) / safeDomWidth) * viewWidth + viewBox.minX
  (viewX - viewBox.minX) / viewWidth

/-- The y-axis percent ratio computed by the viewport branch of
`#rectToSlideMetrics` (src lines 1246-1256). -/
def viewportPercentRatioY (rect : ElementRect) (svgRect : DomRect) (viewBox : ViewBox) : ℚ :=
  let safeDomHeight := jsOr svgRect.height 1
  let viewHeight := jsOr (jsOr viewBox.height safeDomHeight) 1
  let viewY :=
    if rect.coordinateSpace = CoordinateSpace.svg then rect.y
    else ((rect.y - svgRect.y) / safeDomHeight) * viewHeight + viewBox.minY
  (viewY - viewBox.minY) / viewHeight

/-- The width share of the logical box used by both sizing branches of
`#rectToSlideMetrics` (`viewW / viewWidth`, resp. `viewW / safeViewWidth`;
the two branches compute the same expression). -/
def sizeRatioW (rect : ElementRect) (svgRect : DomRect) (viewBox : ViewBox) : ℚ :=
  let safeDomWidth := jsOr svgRect.width 1
  let viewWidth := jsOr (jsOr viewBox.width safeDomWidth) 1
  let viewW :=
    if rect.coordinateSpace = CoordinateSpace.svg then rect.width
    else (rect.width / safeDomWidth) * viewWidth
  viewW / viewWidth

/-- The height share of the logical box used by both sizing branches of
`#rectToSlideMetrics`. -/
def sizeRatioH (rect : ElementRect) (svgRect : DomRect) (viewBox : ViewBox) : ℚ :=
  let safeDomHeight := jsOr svgRect.height 1
  let viewHeight := jsOr (jsOr viewBox.height safeDomHeight) 1
  let viewH :=
    if rect.coordinateSpace = CoordinateSpace.svg then rect.height
    else (rect.height / safeDomHeight) * viewHeight
  viewH / viewHeight

/-- The x-axis ratio computed by the fit branch of `#rectToSlideMetrics`
(src lines 1267-1288): `viewX / safeViewWidth`. -/
def fitRatioX (rect : ElementRect) (svgRect : DomRect) (viewBox : ViewBox) : ℚ :=
  let safeDomWidth := jsOr svgRect.width 1
  let safeViewWidth := jsOr (jsOr viewBox.width safeDomWidth) 1
  let viewX :=
    if rect.coordinateSpace = CoordinateSpace.svg then rect.x - viewBox.minX
    else ((rect.x - svgRect.x) / safeDomWidth) * safeViewWidth
  viewX / safeViewWidth

/-- The y-axis ratio computed by the fit branch of `#rectToSlideMetrics`
(src lines 1267-1289): `viewY / safeViewHeight`. -/
def fitRatioY (rect : ElementRect) (svgRect : DomRect) (viewBox : ViewBox) : ℚ :=
  let safeDomHeight := jsOr svgRect.height 1
  let safeViewHeight := jsOr (jsOr viewBox.height safeDomHeight) 1
  let viewY :=
    if rect.coordinateSpace = CoordinateSpace.svg then rect.y - viewBox.minY
    else ((rect.y - svgRect.y) / safeDomHeight) * safeViewHeight
  viewY / safeViewHeight

/-- `#parseLength` (src lines 726-729): a parse that is not finite
(missing attribute, garbage string) degrades to `0`. -/
def parseLength (value : Option ℚ) : ℚ :=
  match value with
  | some parsed => parsed
  | none => 0

/-- A 2D affine matrix as returned by `getScreenCTM`;
`matrixTransform` maps `(x, y)` to `(a*x + c*y + e, b*x + d*y + f)`. -/
structure Matrix2D where
  a : ℚ
  b : ℚ
  c : ℚ
  d : ℚ
  e : ℚ
  f : ℚ
deriving DecidableEq

/-- The x component of `SVGPoint.matrixTransform`. -/
def matrixTransformX (m : Matrix2D) (pointX pointY : ℚ) : ℚ :=
  m.a * pointX + m.c * pointY + m.e

/-- The y component of `SVGPoint.matrixTransform`. -/
def matrixTransformY (m : Matrix2D) (pointX pointY : ℚ) : ℚ :=
  m.b * pointX + m.d * pointY + m.f

/-- A slide coordinate descriptor produced by `#convertSvgPointToSlide`. -/
structure SlidePoint where
  x : ℤ
  y : ℤ
  xPercent : Option ℚ
  yPercent : Option ℚ
deriving DecidableEq

/-- `#convertSvgPointToSlide` (src lines 761-800).  The unavailable-DOM
paths (no owner svg, no `createSVGPoint`, no screen CTM, exceptions) are
modelled by the `matrix` argument being `none`. -/
def convertSvgPointToSlide (self : Exporter) (matrix : Option Matrix2D)
    (pointX pointY : ℚ) (context : SlideContext) : Option SlidePoint :=
  match matrix with
  | none => none
  | some m =>
      let svgRect := context.svgRect
      let domX := matrixTransformX m pointX pointY
      let domY := matrixTransformY m pointX pointY
      let svgX := svgRect.x
      let svgY := svgRect.y
      let safeDomWidth := jsOr svgRect.width 1
      let safeDomHeight := jsOr svgRect.height 1
      let ratioX := (domX - svgX) / safeDomWidth
      let ratioY := (domY - svgY) / safeDomHeight
      let coordinate : SlidePoint :=
        { x := jsRound (ratioX * self.slideWidthEmu)
          y := jsRound (ratioY * self.slideHeightEmu)
          xPercent := none
          yPercent := none }
      if context.slideSizing = SlideSizing.viewport then
        let withX :=
          if ratioX < 0 ∨ ratioX > 1 then
            { coordinate with xPercent := some (toFixed2 (ratioX * 100)) }
          else coordinate
        let withY :=
          if ratioY < 0 ∨ ratioY > 1 then
            { withX with yPercent := some (toFixed2 (ratioY * 100)) }
          else withX
        some withY
      else some coordinate

/-- The four endpoint attributes of a `line` element, each the `parseFloat`
of `getAttribute`; `none` models a missing attribute or an unparsable value. -/
structure LineAttrs where
  x1 : Option ℚ
  y1 : Option ℚ
  x2 : Option ℚ
  y2 : Option ℚ
deriving DecidableEq

/-- The endpoint pair produced by `#resolveLinePoints`. -/
structure LineEndpoints where
  start : SlidePoint
  endPoint : SlidePoint
deriving DecidableEq

/-- `#resolveLinePoints` (src lines 739-749). -/
def resolveLinePoints (self : Exporter) (attrs : LineAttrs) (matrix : Option Matrix2D)
    (context : SlideContext) : Option LineEndpoints :=
  let x1 := parseLength attrs.x1
  let y1 := parseLength attrs.y1
  let x2 := parseLength attrs.x2
  let y2 := parseLength attrs.y2
  if [x1, y1, x2, y2].any (fun value => ! jsIsFinite value) then none
  else
    match convertSvgPointToSlide self matrix x1 y1 context,
        convertSvgPointToSlide self matrix x2 y2 context with
    | some s, some e => some { start := s, endPoint := e }
    | _, _ => none

/-- A resolved color descriptor: the `{hex, alpha}` pair produced by
`HTML2PPTX.toColor`; the `'#RRGGBB'` string is modelled by its RGB value. -/
structure Color where
  hex : ℕ
  alpha : ℚ
deriving DecidableEq

/-- `#parseOpacity` (src lines 1001-1005): unparsable opacity defaults to
`1`, parsable values are clamped to `[0, 1]`. -/
def parseOpacity (value : Option ℚ) : ℚ :=
  match value with
  | none => 1
  | some parsed => max 0 (min 1 parsed)

/-- `#applyOpacity` (src lines 1015-1022); the `Number.isFinite(multiplier)`
guard is the identity in the rational model. -/
def applyOpacity (color : Option Color) (multiplier : ℚ) : Color :=
  let safeColor := color.getD { hex := 0, alpha := 0 }
  { hex := safeColor.hex, alpha := max 0 (min 1 (safeColor.alpha * multiplier)) }

/-- `#hasVisibleColor` (src lines 1031-1033). -/
def hasVisibleColor (color : Option Color) : Bool :=
  match color with
  | some c => decide (c.alpha > 0)
  | none => false

/-- The computed-style fields read by the style resolver.  Color-valued
properties carry the `toColor` sample of the property (the 1x1 canvas
oracle always yields a `{hex, alpha}` record with alpha in `[0, 1]`);
numeric properties carry their `parseFloat`, with `none` for NaN. -/
structure ComputedStyle where
  backgroundColor : Color
  color : Color
  fill : Color
  stroke : Color
  borderColor : Color
  opacity : Option ℚ
  fillOpacity : Option ℚ
  strokeOpacity : Option ℚ
  strokeWidth : Option ℚ
  borderWidth : Option ℚ
deriving DecidableEq

/-- The color palette returned by `#resolveColors`. -/
structure Palette where
  background : Color
  color : Color
  fill : Color
  stroke : Color
deriving DecidableEq

/-- `#resolveColors` (src lines 962-992).  The element argument is its
`tagName` (the only part of the element the function reads), supplied by
the embedding already in the form `element.tagName.toUpperCase()` produces
(DOM tag names of HTML elements are uppercase to begin with), so the
membership test `SVG_ELEMENTS.has(...)` applies to it directly. -/
def resolveColors (tagName : String) (style : ComputedStyle) : Palette :=
  let baseOpacity := parseOpacity style.opacity
  let background := applyOpacity (some style.backgroundColor) baseOpacity
  let textColor := applyOpacity (some style.color) baseOpacity
  let fillColor := applyOpacity (some style.fill) (parseOpacity style.fillOpacity * baseOpacity)
  let strokeColor :=
    applyOpacity (some style.stroke) (parseOpacity style.strokeOpacity * baseOpacity)
  let borderColor := applyOpacity (some style.borderColor) baseOpacity
  let isSvgElement := SVG_ELEMENTS.contains tagName
  let fill := if ! isSvgElement && hasVisibleColor (some background) then background else fillColor
  let stroke :=
    if ! isSvgElement && hasVisibleColor (some borderColor) then borderColor else strokeColor
  { background := background, color := textColor, fill := fill, stroke := stroke }

/-- The composed vector fill paint: the `fillColor` computed inside
`#resolveColors` (src lines 972-975). -/
def vectorFillPaint (style : ComputedStyle) : Color :=
  applyOpacity (some style.fill) (parseOpacity style.fillOpacity * parseOpacity style.opacity)

/-- The composed vector stroke paint: the `strokeColor` computed inside
`#resolveColors` (src lines 976-979). -/
def vectorStrokePaint (style : ComputedStyle) : Color :=
  applyOpacity (some style.stroke) (parseOpacity style.strokeOpacity * parseOpacity style.opacity)

/-- The CSS pixel width selected by `#resolveBorderWidth` (src lines
1043-1051): the first of `stroke-width`, `border-width` that parses to a
finite positive number. -/
def declaredPxWidth (style : ComputedStyle) : Option ℚ :=
  (([style.strokeWidth, style.borderWidth].find? fun value =>
      match value with
      | some v => decide (0 < v)
      | none => false)).join

/-- `#resolveBorderWidth` (src lines 1042-1057).  The
`!Number.isFinite(pxWidth) || pxWidth <= 0` guard collapses to the `none`
case here, because `find?` only succeeds on a finite positive value. -/
def resolveBorderWidth (style : ComputedStyle) : ℚ :=
  match declaredPxWidth style with
  | none => 0
  | some pxWidth =>
      if pxToEmu pxWidth ≤ STROKE_LIMIT then 0
      else ((max 1 (min 256 (jsMathRound (pxToPoints pxWidth))) : ℤ) : ℚ)

/-- `#alphaToTransparency` (src lines 616-619). -/
def alphaToTransparency (alpha : ℚ) : ℤ :=
  jsMathRound ((1 - max 0 (min 1 alpha)) * 100)

/-- The pptxgen line attribute built by `#lineOptions`. -/
structure LineStyle where
  color : ℕ
  width : ℚ
  dashType : String
  transparency : ℤ
deriving DecidableEq

/-- `#lineOptions` (src lines 597-607): `none` models the empty object
returned when the stroke is suppressed. -/
def lineOptions (color : Option Color) (width : ℚ) (dashType : String) : Option LineStyle :=
  if jsIsFinite width = false ∨ width ≤ 0 then none
  else
    some
      { color := (match color with | some c => c.hex | none => 0)
        width := width
        dashType := dashType
        transparency := alphaToTransparency (match color with | some c => c.alpha | none => 1) }

/-- `#resolveRadius` (src lines 1091-1109).  `rx`, `ry` are the
`parseFloat` of the element attributes, `borderRadius` the `parseFloat` of
the computed `border-radius`; `rect` is the bounding rectangle (possibly
absent).  Note the fixed `reference = 1` with the per-element
`Math.max(1, Math.min(width, height))` left commented out in the source. -/
def resolveRadius (rx ry borderRadius : Option ℚ) (rect : Option DomRect) : ℚ :=
  let pxRadius :=
    match borderRadius with
    | some br =>
        if 0 < br then br
        else
          match rx, ry with
          | some rxv, some ryv => (rxv + ryv) / 2
          | _, _ => 0
    | none =>
        match rx, ry with
        | some rxv, some ryv => (rxv + ryv) / 2
        | _, _ => 0
  if pxRadius ≤ 0 then 0
  else
    let width := match rect with | some r => r.width | none => pxRadius * 2
    let height := match rect with | some r => r.height | none => pxRadius * 2
    let reference : ℚ := 1
    let normalized := pxRadius / (reference / 2)
    max 0 (min 1 normalized) * (5 / 100)

/-- Modelled from the spec (its words, for comparison with `jsRound` only):
"round-half-away-from-zero", the rounding mode the spec attributes to the
`#round` helper. -/
def roundHalfAwayFromZero (value : ℚ) : ℤ :=
  if 0 ≤ value then ⌊value + 1 / 2⌋ else -⌊-value + 1 / 2⌋

/-- `#radiusPx`, the pixel radius selected inside `#resolveRadius`
(src lines 1092-1102): `border-radius` when it parses positive, else the
mean of `rx`/`ry` when both parse, else `0`. -/
def radiusPx (rx ry borderRadius : Option ℚ) : ℚ :=
  match borderRadius with
  | some br =>
      if 0 < br then br
      else
        match rx, ry with
        | some rxv, some ryv => (rxv + ryv) / 2
        | _, _ => 0
  | none =>
      match rx, ry with
      | some rxv, some ryv => (rxv + ryv) / 2
      | _, _ => 0

/-- A computed style declaring `stroke-width: 1px` and nothing else
(a stroke width sitting exactly at the suppression threshold). -/
def styleStrokeAtLimit : ComputedStyle :=
  { backgroundColor := ⟨0, 0⟩, color := ⟨0, 0⟩, fill := ⟨0, 0⟩, stroke := ⟨0, 0⟩,
    borderColor := ⟨0, 0⟩, opacity := none, fillOpacity := none, strokeOpacity := none,
    strokeWidth := some 1, borderWidth := none }

/-- A computed style with a fully transparent background color (alpha `0`)
and an opaque vector fill. -/
def styleInvisibleBg : ComputedStyle :=
  { backgroundColor := ⟨255, 0⟩, color := ⟨0, 0⟩, fill := ⟨43520, 1⟩, stroke := ⟨0, 0⟩,
    borderColor := ⟨0, 0⟩, opacity := some 1, fillOpacity := some 1, strokeOpacity := none,
    strokeWidth := none, borderWidth := none }

/-- A computed style with an opaque background color, an opaque fill and
`fill-opacity: 0.5`: on a non-vector tag the box color wins precedence. -/
def styleBoxWinsHalfFillOpacity : ComputedStyle :=
  { backgroundColor := ⟨255, 1⟩, color := ⟨0, 0⟩, fill := ⟨65280, 1⟩, stroke := ⟨0, 0⟩,
    borderColor := ⟨0, 0⟩, opacity := some 1, fillOpacity := some (1 / 2), strokeOpacity := none,
    strokeWidth := none, borderWidth := none }

/-- A computed style whose fill color has alpha `0.5` under an element
opacity of `0.5` (the spec's 0.25-composition example). -/
def styleQuarterAlphaFill : ComputedStyle :=
  { backgroundColor := ⟨0, 0⟩, color := ⟨0, 0⟩, fill := ⟨255, 1 / 2⟩, stroke := ⟨0, 1⟩,
    borderColor := ⟨0, 0⟩, opacity := some (1 / 2), fillOpacity := none, strokeOpacity := none,
    strokeWidth := none, borderWidth := none }

/-- Unfolding `#rectToSlideMetrics` in viewport mode: the output is built
from the two percent ratios and the two size ratios. -/
theorem rectToSlideMetrics_viewport (self : Exporter) (rect : ElementRect)
    (svgRect : DomRect) (viewBox : ViewBox) :
    rectToSlideMetrics self rect
        { svgRect := svgRect, viewBox := viewBox, slideSizing := SlideSizing.viewport } =
      { x := jsRound (viewportPercentRatioX rect svgRect viewBox * self.slideWidthEmu)
        y := jsRound (viewportPercentRatioY rect svgRect viewBox * self.slideHeightEmu)
        w := jsRound (sizeRatioW rect svgRect viewBox * self.slideWidthEmu)
        h := jsRound (sizeRatioH rect svgRect viewBox * self.slideHeightEmu)
        viewportPercentX := some (viewportPercentRatioX rect svgRect viewBox)
        viewportPercentY := some (viewportPercentRatioY rect svgRect viewBox)
        xPercent := none
        yPercent := none } := rfl

/-- Unfolding `#rectToSlideMetrics` in fit mode: the output is built from
the two fit ratios and the two size ratios, with no percent bookkeeping. -/
theorem rectToSlideMetrics_fit (self : Exporter) (rect : ElementRect)
    (svgRect : DomRect) (viewBox : ViewBox) :
    rectToSlideMetrics self rect
        { svgRect := svgRect, viewBox := viewBox, slideSizing := SlideSizing.fit } =
      { x := jsRound (fitRatioX rect svgRect viewBox * self.slideWidthEmu)
        y := jsRound (fitRatioY rect svgRect viewBox * self.slideHeightEmu)
        w := jsRound (sizeRatioW rect svgRect viewBox * self.slideWidthEmu)
        h := jsRound (sizeRatioH rect svgRect viewBox * self.slideHeightEmu)
        viewportPercentX := none
        viewportPercentY := none
        xPercent := none
        yPercent := none } := rfl

/-- `#normalizeMetrics` is the identity in fit mode. -/
theorem normalizeMetrics_fit (metrics : SlideMetrics) (svgRect : DomRect) (viewBox : ViewBox) :
    normalizeMetrics metrics
        { svgRect := svgRect, viewBox := viewBox, slideSizing := SlideSizing.fit } =
      metrics := rfl

/-- The viewport-mode percent ratio and the fit-mode ratio coincide on the
x axis (the two branches compute the same quotient). -/
theorem viewportPercentRatioX_eq_fitRatioX (rect : ElementRect) (svgRect : DomRect)
    (viewBox : ViewBox) :
    viewportPercentRatioX rect svgRect viewBox = fitRatioX rect svgRect viewBox := by
  rcases rect with ⟨rx, ry, rw, rh, space⟩
  cases space <;> simp [viewportPercentRatioX, fitRatioX]

/-- The viewport-mode percent ratio and the fit-mode ratio coincide on the
y axis. -/
theorem viewportPercentRatioY_eq_fitRatioY (rect : ElementRect) (svgRect : DomRect)
    (viewBox : ViewBox) :
    viewportPercentRatioY rect svgRect viewBox = fitRatioY rect svgRect viewBox := by
  rcases rect with ⟨rx, ry, rw, rh, space⟩
  cases space <;> simp [viewportPercentRatioY, fitRatioY]

/-- What `#normalizeMetrics` does in viewport mode, axis by axis: an axis
is overridden exactly when its rounded absolute coordinate is negative. -/
theorem normalizeMetrics_viewport (metrics : SlideMetrics) (svgRect : DomRect)
    (viewBox : ViewBox) (px py : ℚ) (hx : metrics.viewportPercentX = some px)
    (hy : metrics.viewportPercentY = some py) :
    normalizeMetrics metrics
        { svgRect := svgRect, viewBox := viewBox, slideSizing := SlideSizing.viewport } =
      { x := if metrics.x < 0 then 0 else metrics.x
        y := if metrics.y < 0 then 0 else metrics.y
        w := metrics.w
        h := metrics.h
        viewportPercentX := metrics.viewportPercentX
        viewportPercentY := metrics.viewportPercentY
        xPercent := if metrics.x < 0 then some (toFixed2 (px * 100)) else metrics.xPercent
        yPercent := if metrics.y < 0 then some (toFixed2 (py * 100)) else metrics.yPercent } := by
  rcases metrics with ⟨mx, my, mw, mh, vpx, vpy, xp, yp⟩
  simp only at hx hy
  subst hx; subst hy
  unfold normalizeMetrics
  rw [if_pos rfl]
  by_cases h1 : mx < 0 <;> by_cases h2 : my < 0 <;> simp [h1, h2]

/-- `#round` of a non-negative value is non-negative. -/
theorem jsRound_nonneg {q : ℚ} (h : 0 ≤ q) : 0 ≤ jsRound q := by
  unfold jsRound jsMathRound
  refine Int.floor_nonneg.mpr ?_
  have heps : (0 : ℚ) < epsJS := by norm_num [epsJS]
  linarith

/-- Unfolding `#convertSvgPointToSlide` in fit mode with an available
screen matrix. -/
theorem convertSvgPointToSlide_fit (self : Exporter) (m : Matrix2D) (pointX pointY : ℚ)
    (svgRect : DomRect) (viewBox : ViewBox) :
    convertSvgPointToSlide self (some m) pointX pointY
        { svgRect := svgRect, viewBox := viewBox, slideSizing := SlideSizing.fit } =
      some
        { x := jsRound ((matrixTransformX m pointX pointY - svgRect.x) / jsOr svgRect.width 1 *
            self.slideWidthEmu)
          y := jsRound ((matrixTransformY m pointX pointY - svgRect.y) / jsOr svgRect.height 1 *
            self.slideHeightEmu)
          xPercent := none
          yPercent := none } := rfl

/-- The full behavior of the composed geometry resolver in viewport mode:
for each of the x and y axes, the percent override (and the zeroed
absolute coordinate) is emitted exactly when the rounded absolute
coordinate is negative; otherwise only the absolute coordinate is kept. -/
theorem resolveMetrics_viewport_override_rule (self : Exporter) (rect : ElementRect)
    (svgRect : DomRect) (viewBox : ViewBox) :
    (resolveMetrics self rect
        { svgRect := svgRect, viewBox := viewBox, slideSizing := SlideSizing.viewport }).xPercent =
      (if jsRound (viewportPercentRatioX rect svgRect viewBox * self.slideWidthEmu) < 0 then
        some (toFixed2 (viewportPercentRatioX rect svgRect viewBox * 100))
      else none) ∧
    (resolveMetrics self rect
        { svgRect := svgRect, viewBox := viewBox, slideSizing := SlideSizing.viewport }).x =
      (if jsRound (viewportPercentRatioX rect svgRect viewBox * self.slideWidthEmu) < 0 then 0
      else jsRound (viewportPercentRatioX rect svgRect viewBox * self.slideWidthEmu)) ∧
    (resolveMetrics self rect
        { svgRect := svgRect, viewBox := viewBox, slideSizing := SlideSizing.viewport }).yPercent =
      (if jsRound (viewportPercentRatioY rect svgRect viewBox * self.slideHeightEmu) < 0 then
        some (toFixed2 (viewportPercentRatioY rect svgRect viewBox * 100))
      else none) ∧
    (resolveMetrics self rect
        { svgRect := svgRect, viewBox := viewBox, slideSizing := SlideSizing.viewport }).y =
      (if jsRound (viewportPercentRatioY rect svgRect viewBox * self.slideHeightEmu) < 0 then 0
      else jsRound (viewportPercentRatioY rect svgRect viewBox * self.slideHeightEmu)) := by
  have h :=
    normalizeMetrics_viewport
      (rectToSlideMetrics self rect
        { svgRect := svgRect, viewBox := viewBox, slideSizing := SlideSizing.viewport })
      svgRect viewBox (viewportPercentRatioX rect svgRect viewBox)
      (viewportPercentRatioY rect svgRect viewBox)
      (by rw [rectToSlideMetrics_viewport]) (by rw [rectToSlideMetrics_viewport])
  unfold resolveMetrics
  rw [h, rectToSlideMetrics_viewport]
  simp

/-- Claim C1, counterexample: for the screen rect `{x:200, y:50, w:10, h:10}`
in a `100 x 100` viewport and logical box, the computed x ratio is `2`,
strictly greater than `1`; the claim demands a `200.00%` percent override
with absolute coordinate `0`, but the resolver emits no override and keeps
the absolute coordinate `18288000`. -/
theorem viewportPercent_override_counterexample :
    (resolveMetrics ⟨9144000, 5486400⟩ ⟨200, 50, 10, 10, CoordinateSpace.screen⟩
        ⟨⟨0, 0, 100, 100⟩, ⟨0, 0, 100, 100⟩, SlideSizing.viewport⟩).viewportPercentX = some 2 ∧
    (1 : ℚ) < 2 ∧
    (resolveMetrics ⟨9144000, 5486400⟩ ⟨200, 50, 10, 10, CoordinateSpace.screen⟩
        ⟨⟨0, 0, 100, 100⟩, ⟨0, 0, 100, 100⟩, SlideSizing.viewport⟩).xPercent = none ∧
    (resolveMetrics ⟨9144000, 5486400⟩ ⟨200, 50, 10, 10, CoordinateSpace.screen⟩
        ⟨⟨0, 0, 100, 100⟩, ⟨0, 0, 100, 100⟩, SlideSizing.viewport⟩).x = 18288000 := by
  have hpx : viewportPercentRatioX ⟨200, 50, 10, 10, CoordinateSpace.screen⟩
      ⟨0, 0, 100, 100⟩ ⟨0, 0, 100, 100⟩ = 2 := by
    norm_num [viewportPercentRatioX, jsOr]
  have hpy : viewportPercentRatioY ⟨200, 50, 10, 10, CoordinateSpace.screen⟩
      ⟨0, 0, 100, 100⟩ ⟨0, 0, 100, 100⟩ = 1 / 2 := by
    norm_num [viewportPercentRatioY, jsOr]
  have hx : jsRound ((2 : ℚ) * 9144000) = 18288000 := by
    norm_num [jsRound, jsMathRound, epsJS]
  have h := resolveMetrics_viewport_override_rule ⟨9144000, 5486400⟩
    ⟨200, 50, 10, 10, CoordinateSpace.screen⟩ ⟨0, 0, 100, 100⟩ ⟨0, 0, 100, 100⟩
  rw [hpx, hpy] at h
  obtain ⟨h1, h2, h3, h4⟩ := h
  have hc : ¬ jsRound ((2 : ℚ) * 9144000) < 0 := by rw [hx]; norm_num
  rw [if_neg hc] at h1 h2
  have hvp : (resolveMetrics ⟨9144000, 5486400⟩ ⟨200, 50, 10, 10, CoordinateSpace.screen⟩
      ⟨⟨0, 0, 100, 100⟩, ⟨0, 0, 100, 100⟩, SlideSizing.viewport⟩).viewportPercentX = some 2 := by
    unfold resolveMetrics
    rw [normalizeMetrics_viewport _ _ _
        (viewportPercentRatioX ⟨200, 50, 10, 10, CoordinateSpace.screen⟩
          ⟨0, 0, 100, 100⟩ ⟨0, 0, 100, 100⟩)
        (viewportPercentRatioY ⟨200, 50, 10, 10, CoordinateSpace.screen⟩
          ⟨0, 0, 100, 100⟩ ⟨0, 0, 100, 100⟩)
        (by rw [rectToSlideMetrics_viewport]) (by rw [rectToSlideMetrics_viewport])]
    rw [rectToSlideMetrics_viewport]
    simp [hpx]
  exact ⟨hvp, by norm_num, h1, by rw [h2, hx]⟩

/-- Claim C1 (amended): in VIEWPORT_PERCENT mode the percent override for
an axis is emitted exactly when the rounded absolute coordinate for that
axis is negative (not whenever the ratio leaves `[0, 1]`: a ratio above
`1` keeps its large absolute coordinate and gets no override); when it is
emitted, its value is the ratio times `100` formatted to two decimals and
the absolute coordinate is set to `0`; otherwise only the absolute
coordinate is emitted. -/
theorem viewportPercent_override_amended (self : Exporter) (rect : ElementRect)
    (svgRect : DomRect) (viewBox : ViewBox) :
    (resolveMetrics self rect
        { svgRect := svgRect, viewBox := viewBox, slideSizing := SlideSizing.viewport }).xPercent =
      (if jsRound (viewportPercentRatioX rect svgRect viewBox * self.slideWidthEmu) < 0 then
        some (toFixed2 (viewportPercentRatioX rect svgRect viewBox * 100))
      else none) ∧
    (resolveMetrics self rect
        { svgRect := svgRect, viewBox := viewBox, slideSizing := SlideSizing.viewport }).x =
      (if jsRound (viewportPercentRatioX rect svgRect viewBox * self.slideWidthEmu) < 0 then 0
      else jsRound (viewportPercentRatioX rect svgRect viewBox * self.slideWidthEmu)) ∧
    (resolveMetrics self rect
        { svgRect := svgRect, viewBox := viewBox, slideSizing := SlideSizing.viewport }).yPercent =
      (if jsRound (viewportPercentRatioY rect svgRect viewBox * self.slideHeightEmu) < 0 then
        some (toFixed2 (viewportPercentRatioY rect svgRect viewBox * 100))
      else none) ∧
    (resolveMetrics self rect
        { svgRect := svgRect, viewBox := viewBox, slideSizing := SlideSizing.viewport }).y =
      (if jsRound (viewportPercentRatioY rect svgRect viewBox * self.slideHeightEmu) < 0 then 0
      else jsRound (viewportPercentRatioY rect svgRect viewBox * self.slideHeightEmu)) :=
  resolveMetrics_viewport_override_rule self rect svgRect viewBox

/-- Claim C2: the line-endpoint resolver does not return its no-result
signal for a missing `x1` attribute.  `#parseLength` maps the failed parse
to `0` (so the non-finite guard in `#resolveLinePoints` can never fire),
and with a valid screen matrix the resolver emits endpoints computed with
`x1 = 0` instead of `null`. -/
theorem resolveLinePoints_missing_x1_eval :
    parseLength none = 0 ∧
    resolveLinePoints ⟨9144000, 5486400⟩ ⟨none, some 1, some 2, some 3⟩
        (some ⟨1, 0, 0, 1, 0, 0⟩) ⟨⟨0, 0, 100, 100⟩, ⟨0, 0, 100, 100⟩, SlideSizing.fit⟩ =
      some { start := { x := 0, y := 54864, xPercent := none, yPercent := none }
             endPoint := { x := 182880, y := 164592, xPercent := none, yPercent := none } } := by
  refine ⟨rfl, ?_⟩
  have h1 : convertSvgPointToSlide ⟨9144000, 5486400⟩ (some ⟨1, 0, 0, 1, 0, 0⟩) 0 1
      ⟨⟨0, 0, 100, 100⟩, ⟨0, 0, 100, 100⟩, SlideSizing.fit⟩ =
      some { x := 0, y := 54864, xPercent := none, yPercent := none } := by
    rw [convertSvgPointToSlide_fit]
    norm_num [matrixTransformX, matrixTransformY, jsOr, jsRound, jsMathRound, epsJS]
  have h2 : convertSvgPointToSlide ⟨9144000, 5486400⟩ (some ⟨1, 0, 0, 1, 0, 0⟩) 2 3
      ⟨⟨0, 0, 100, 100⟩, ⟨0, 0, 100, 100⟩, SlideSizing.fit⟩ =
      some { x := 182880, y := 164592, xPercent := none, yPercent := none } := by
    rw [convertSvgPointToSlide_fit]
    norm_num [matrixTransformX, matrixTransformY, jsOr, jsRound, jsMathRound, epsJS]
  simp only [resolveLinePoints, parseLength, jsIsFinite, Bool.not_true, List.any_cons,
    List.any_nil, Bool.or_self, Bool.or_false, Bool.false_eq_true, if_false]
  rw [h1, h2]

/-- Claim C3: for any rectangle and slide context whose computed axis
ratios lie within `[0, 1]` on both axes (with non-negative page
dimensions), VIEWPORT_PERCENT mode produces the same absolute metrics
`x`, `y`, `w`, `h` as FIT mode, and emits no percent override. -/
theorem viewport_fit_agree_in_range (self : Exporter) (rect : ElementRect)
    (svgRect : DomRect) (viewBox : ViewBox)
    (hW : 0 ≤ self.slideWidthEmu) (hH : 0 ≤ self.slideHeightEmu)
    (hx0 : 0 ≤ viewportPercentRatioX rect svgRect viewBox)
    (hx1 : viewportPercentRatioX rect svgRect viewBox ≤ 1)
    (hy0 : 0 ≤ viewportPercentRatioY rect svgRect viewBox)
    (hy1 : viewportPercentRatioY rect svgRect viewBox ≤ 1) :
    (resolveMetrics self rect
        { svgRect := svgRect, viewBox := viewBox, slideSizing := SlideSizing.viewport }).x =
      (resolveMetrics self rect
        { svgRect := svgRect, viewBox := viewBox, slideSizing := SlideSizing.fit }).x ∧
    (resolveMetrics self rect
        { svgRect := svgRect, viewBox := viewBox, slideSizing := SlideSizing.viewport }).y =
      (resolveMetrics self rect
        { svgRect := svgRect, viewBox := viewBox, slideSizing := SlideSizing.fit }).y ∧
    (resolveMetrics self rect
        { svgRect := svgRect, viewBox := viewBox, slideSizing := SlideSizing.viewport }).w =
      (resolveMetrics self rect
        { svgRect := svgRect, viewBox := viewBox, slideSizing := SlideSizing.fit }).w ∧
    (resolveMetrics self rect
        { svgRect := svgRect, viewBox := viewBox, slideSizing := SlideSizing.viewport }).h =
      (resolveMetrics self rect
        { svgRect := svgRect, viewBox := viewBox, slideSizing := SlideSizing.fit }).h ∧
    (resolveMetrics self rect
        { svgRect := svgRect, viewBox := viewBox, slideSizing := SlideSizing.viewport }).xPercent =
      none ∧
    (resolveMetrics self rect
        { svgRect := svgRect, viewBox := viewBox, slideSizing := SlideSizing.viewport }).yPercent =
      none := by
  obtain ⟨h1, h2, h3, h4⟩ :=
    resolveMetrics_viewport_override_rule self rect svgRect viewBox
  have hcx : ¬ jsRound (viewportPercentRatioX rect svgRect viewBox * self.slideWidthEmu) < 0 :=
    not_lt.mpr (jsRound_nonneg (mul_nonneg hx0 hW))
  have hcy : ¬ jsRound (viewportPercentRatioY rect svgRect viewBox * self.slideHeightEmu) < 0 :=
    not_lt.mpr (jsRound_nonneg (mul_nonneg hy0 hH))
  rw [if_neg hcx] at h1 h2
  rw [if_neg hcy] at h3 h4
  have hwv : (resolveMetrics self rect
      { svgRect := svgRect, viewBox := viewBox, slideSizing := SlideSizing.viewport }).w =
      jsRound (sizeRatioW rect svgRect viewBox * self.slideWidthEmu) := by
    unfold resolveMetrics
    rw [normalizeMetrics_viewport _ _ _ (viewportPercentRatioX rect svgRect viewBox)
        (viewportPercentRatioY rect svgRect viewBox)
        (by rw [rectToSlideMetrics_viewport]) (by rw [rectToSlideMetrics_viewport])]
    rw [rectToSlideMetrics_viewport]
  have hhv : (resolveMetrics self rect
      { svgRect := svgRect, viewBox := viewBox, slideSizing := SlideSizing.viewport }).h =
      jsRound (sizeRatioH rect svgRect viewBox * self.slideHeightEmu) := by
    unfold resolveMetrics
    rw [normalizeMetrics_viewport _ _ _ (viewportPercentRatioX rect svgRect viewBox)
        (viewportPercentRatioY rect svgRect viewBox)
        (by rw [rectToSlideMetrics_viewport]) (by rw [rectToSlideMetrics_viewport])]
    rw [rectToSlideMetrics_viewport]
  have hfit : resolveMetrics self rect
      { svgRect := svgRect, viewBox := viewBox, slideSizing := SlideSizing.fit } =
      rectToSlideMetrics self rect
        { svgRect := svgRect, viewBox := viewBox, slideSizing := SlideSizing.fit } :=
    normalizeMetrics_fit _ _ _
  refine ⟨?_, ?_, ?_, ?_, h1, h3⟩
  · rw [h2, hfit, rectToSlideMetrics_fit, viewportPercentRatioX_eq_fitRatioX]
  · rw [h4, hfit, rectToSlideMetrics_fit, viewportPercentRatioY_eq_fitRatioY]
  · rw [hwv, hfit, rectToSlideMetrics_fit]
  · rw [hhv, hfit, rectToSlideMetrics_fit]

/-- Claim C3, witness: the screen rect `{x:10, y:20, w:30, h:40}` in a
`100 x 100` viewport has ratios `0.1` and `0.2`, both inside `[0, 1]`, and
the two sizing modes agree on it. -/
theorem viewport_fit_agree_in_range_witness :
    (0 : ℚ) ≤ (9144000 : ℚ) ∧ (0 : ℚ) ≤ (5486400 : ℚ) ∧
    0 ≤ viewportPercentRatioX ⟨10, 20, 30, 40, CoordinateSpace.screen⟩
        ⟨0, 0, 100, 100⟩ ⟨0, 0, 100, 100⟩ ∧
    viewportPercentRatioX ⟨10, 20, 30, 40, CoordinateSpace.screen⟩
        ⟨0, 0, 100, 100⟩ ⟨0, 0, 100, 100⟩ ≤ 1 ∧
    0 ≤ viewportPercentRatioY ⟨10, 20, 30, 40, CoordinateSpace.screen⟩
        ⟨0, 0, 100, 100⟩ ⟨0, 0, 100, 100⟩ ∧
    viewportPercentRatioY ⟨10, 20, 30, 40, CoordinateSpace.screen⟩
        ⟨0, 0, 100, 100⟩ ⟨0, 0, 100, 100⟩ ≤ 1 ∧
    ((resolveMetrics ⟨9144000, 5486400⟩ ⟨10, 20, 30, 40, CoordinateSpace.screen⟩
        ⟨⟨0, 0, 100, 100⟩, ⟨0, 0, 100, 100⟩, SlideSizing.viewport⟩).x =
      (resolveMetrics ⟨9144000, 5486400⟩ ⟨10, 20, 30, 40, CoordinateSpace.screen⟩
        ⟨⟨0, 0, 100, 100⟩, ⟨0, 0, 100, 100⟩, SlideSizing.fit⟩).x ∧
    (resolveMetrics ⟨9144000, 5486400⟩ ⟨10, 20, 30, 40, CoordinateSpace.screen⟩
        ⟨⟨0, 0, 100, 100⟩, ⟨0, 0, 100, 100⟩, SlideSizing.viewport⟩).y =
      (resolveMetrics ⟨9144000, 5486400⟩ ⟨10, 20, 30, 40, CoordinateSpace.screen⟩
        ⟨⟨0, 0, 100, 100⟩, ⟨0, 0, 100, 100⟩, SlideSizing.fit⟩).y ∧
    (resolveMetrics ⟨9144000, 5486400⟩ ⟨10, 20, 30, 40, CoordinateSpace.screen⟩
        ⟨⟨0, 0, 100, 100⟩, ⟨0, 0, 100, 100⟩, SlideSizing.viewport⟩).w =
      (resolveMetrics ⟨9144000, 5486400⟩ ⟨10, 20, 30, 40, CoordinateSpace.screen⟩
        ⟨⟨0, 0, 100, 100⟩, ⟨0, 0, 100, 100⟩, SlideSizing.fit⟩).w ∧
    (resolveMetrics ⟨9144000, 5486400⟩ ⟨10, 20, 30, 40, CoordinateSpace.screen⟩
        ⟨⟨0, 0, 100, 100⟩, ⟨0, 0, 100, 100⟩, SlideSizing.viewport⟩).h =
      (resolveMetrics ⟨9144000, 5486400⟩ ⟨10, 20, 30, 40, CoordinateSpace.screen⟩
        ⟨⟨0, 0, 100, 100⟩, ⟨0, 0, 100, 100⟩, SlideSizing.fit⟩).h ∧
    (resolveMetrics ⟨9144000, 5486400⟩ ⟨10, 20, 30, 40, CoordinateSpace.screen⟩
        ⟨⟨0, 0, 100, 100⟩, ⟨0, 0, 100, 100⟩, SlideSizing.viewport⟩).xPercent = none ∧
    (resolveMetrics ⟨9144000, 5486400⟩ ⟨10, 20, 30, 40, CoordinateSpace.screen⟩
        ⟨⟨0, 0, 100, 100⟩, ⟨0, 0, 100, 100⟩, SlideSizing.viewport⟩).yPercent = none) :=
  ⟨by norm_num, by norm_num,
    by norm_num [viewportPercentRatioX, jsOr], by norm_num [viewportPercentRatioX, jsOr],
    by norm_num [viewportPercentRatioY, jsOr], by norm_num [viewportPercentRatioY, jsOr],
    viewport_fit_agree_in_range ⟨9144000, 5486400⟩ ⟨10, 20, 30, 40, CoordinateSpace.screen⟩
      ⟨0, 0, 100, 100⟩ ⟨0, 0, 100, 100⟩ (by norm_num) (by norm_num)
      (by norm_num [viewportPercentRatioX, jsOr]) (by norm_num [viewportPercentRatioX, jsOr])
      (by norm_num [viewportPercentRatioY, jsOr]) (by norm_num [viewportPercentRatioY, jsOr])⟩

/-- Claim C4: on the spec's worked example (viewport and logical box both
`1000 x 600`, page `9144000 x 5486400` EMU, screen rect
`{x:100, y:60, w:200, h:120}`), FIT mode yields exactly
`{x:914400, y:548640, w:1828800, h:1097280}`. -/
theorem fit_mode_example_metrics :
    resolveMetrics ⟨9144000, 5486400⟩ ⟨100, 60, 200, 120, CoordinateSpace.screen⟩
        ⟨⟨0, 0, 1000, 600⟩, ⟨0, 0, 1000, 600⟩, SlideSizing.fit⟩ =
      { x := 914400, y := 548640, w := 1828800, h := 1097280, viewportPercentX := none,
        viewportPercentY := none, xPercent := none, yPercent := none } := by
  rw [show resolveMetrics ⟨9144000, 5486400⟩ ⟨100, 60, 200, 120, CoordinateSpace.screen⟩
        ⟨⟨0, 0, 1000, 600⟩, ⟨0, 0, 1000, 600⟩, SlideSizing.fit⟩ =
      rectToSlideMetrics ⟨9144000, 5486400⟩ ⟨100, 60, 200, 120, CoordinateSpace.screen⟩
        ⟨⟨0, 0, 1000, 600⟩, ⟨0, 0, 1000, 600⟩, SlideSizing.fit⟩ from
      normalizeMetrics_fit _ _ _]
  rw [rectToSlideMetrics_fit]
  congr 1 <;>
    norm_num [fitRatioX, fitRatioY, sizeRatioW, sizeRatioH, jsOr, jsRound, jsMathRound, epsJS]

/-- Claim C5, counterexample: `#round` is not round-half-away-from-zero of
the nudged value.  At `v = -5/2 - epsilon` the code rounds to `-2` while
the claimed rule gives `-3`, and in particular the negative halfway value
`-5/2` itself rounds to `-2` (toward positive infinity), not away from
zero (`-3`). -/
theorem jsRound_not_half_away_counterexample :
    jsRound (-(5 / 2) - epsJS) = -2 ∧
    roundHalfAwayFromZero (-(5 / 2) - epsJS + epsJS) = -3 ∧
    jsRound (-(5 / 2)) = -2 ∧
    roundHalfAwayFromZero (-(5 / 2)) = -3 := by
  refine ⟨?_, ?_, ?_, ?_⟩ <;>
    norm_num [jsRound, jsMathRound, epsJS, roundHalfAwayFromZero]

/-- Claim C5 (amended): every absolute output is rounded by `#round` to an
integer within `1/2 + epsilon` of the input, the rounding mode being
round-half-up (ties toward positive infinity) after the epsilon nudge: a
value exactly halfway between two integers, negative ones included, rounds
to the larger integer. -/
theorem jsRound_half_up_amended (v : ℚ) (k : ℤ) :
    |(jsRound v : ℚ) - v| ≤ 1 / 2 + epsJS ∧
    jsRound ((k : ℚ) - 1 / 2) = k ∧
    jsRound ((k : ℚ) + 1 / 2) = k + 1 := by
  have heps : ⌊epsJS⌋ = 0 := by norm_num [epsJS]
  refine ⟨?_, ?_, ?_⟩
  · rw [abs_le]
    have hup : ((jsRound v : ℚ)) ≤ v + epsJS + 1 / 2 := by
      unfold jsRound jsMathRound
      exact_mod_cast Int.floor_le (v + epsJS + 1 / 2)
    have hlo : v + epsJS + 1 / 2 - 1 < (jsRound v : ℚ) := by
      unfold jsRound jsMathRound
      exact_mod_cast Int.sub_one_lt_floor (v + epsJS + 1 / 2)
    have heps0 : (0 : ℚ) < epsJS := by norm_num [epsJS]
    constructor <;> linarith
  · unfold jsRound jsMathRound
    rw [show (k : ℚ) - 1 / 2 + epsJS + 1 / 2 = (k : ℚ) + epsJS by ring, Int.floor_int_add, heps]
    omega
  · unfold jsRound jsMathRound
    rw [show (k : ℚ) + 1 / 2 + epsJS + 1 / 2 = ((k + 1 : ℤ) : ℚ) + epsJS by push_cast; ring,
      Int.floor_int_add, heps]
    omega

/-- Bounds of `#parseOpacity`: its result is never negative. -/
theorem parseOpacity_nonneg (value : Option ℚ) : 0 ≤ parseOpacity value := by
  cases value
  · norm_num [parseOpacity]
  · exact le_max_left 0 _

/-- Bounds of `#parseOpacity`: its result never exceeds one. -/
theorem parseOpacity_le_one (value : Option ℚ) : parseOpacity value ≤ 1 := by
  cases value
  · norm_num [parseOpacity]
  · exact max_le zero_le_one (min_le_left _ _)

/-- Clamping to `[0, 1]` is the identity on values already in `[0, 1]`. -/
theorem clamp01_eq_self {x : ℚ} (h0 : 0 ≤ x) (h1 : x ≤ 1) : max 0 (min 1 x) = x := by
  rw [min_eq_right h1, max_eq_right h0]

/-- The fill entry of `#resolveColors`: the composed background color when
the element is not a vector tag and that color is visible, otherwise the
composed vector fill paint. -/
theorem resolveColors_fill (tagName : String) (style : ComputedStyle) :
    (resolveColors tagName style).fill =
      if ! SVG_ELEMENTS.contains tagName &&
          hasVisibleColor
            (some (applyOpacity (some style.backgroundColor) (parseOpacity style.opacity))) then
        applyOpacity (some style.backgroundColor) (parseOpacity style.opacity)
      else vectorFillPaint style := rfl

/-- The stroke entry of `#resolveColors`: the composed border color when
the element is not a vector tag and that color is visible, otherwise the
composed vector stroke paint. -/
theorem resolveColors_stroke (tagName : String) (style : ComputedStyle) :
    (resolveColors tagName style).stroke =
      if ! SVG_ELEMENTS.contains tagName &&
          hasVisibleColor
            (some (applyOpacity (some style.borderColor) (parseOpacity style.opacity))) then
        applyOpacity (some style.borderColor) (parseOpacity style.opacity)
      else vectorStrokePaint style := rfl

/-- Claim C6: when the declared stroke/border width converted to EMU is at
or below `STROKE_LIMIT` (9525 EMU, one pixel), `#resolveBorderWidth`
returns `0` and `#lineOptions` emits no line attribute; when the converted
width is strictly above the threshold, a line attribute is emitted whose
width is at least `1`. -/
theorem strokeWidth_threshold (style : ComputedStyle) (color : Option Color) (dashType : String)
    (px : ℚ) (hfound : declaredPxWidth style = some px) :
    (pxToEmu px ≤ STROKE_LIMIT →
      resolveBorderWidth style = 0 ∧
      lineOptions color (resolveBorderWidth style) dashType = none) ∧
    (STROKE_LIMIT < pxToEmu px →
      ∃ l : LineStyle, lineOptions color (resolveBorderWidth style) dashType = some l ∧
        1 ≤ l.width) := by
  have hrw : resolveBorderWidth style =
      if pxToEmu px ≤ STROKE_LIMIT then 0
      else ((max 1 (min 256 (jsMathRound (pxToPoints px))) : ℤ) : ℚ) := by
    unfold resolveBorderWidth
    rw [hfound]
  constructor
  · intro h
    rw [hrw, if_pos h]
    exact ⟨rfl, by simp [lineOptions, jsIsFinite]⟩
  · intro h
    rw [hrw, if_neg (not_le.mpr h)]
    have h1 : (1 : ℤ) ≤ max 1 (min 256 (jsMathRound (pxToPoints px))) := le_max_left _ _
    have h2 : (0 : ℚ) < ((max 1 (min 256 (jsMathRound (pxToPoints px))) : ℤ) : ℚ) := by
      exact_mod_cast lt_of_lt_of_le zero_lt_one h1
    have hcond : ¬ (jsIsFinite ((max 1 (min 256 (jsMathRound (pxToPoints px))) : ℤ) : ℚ) = false ∨
        ((max 1 (min 256 (jsMathRound (pxToPoints px))) : ℤ) : ℚ) ≤ 0) := by
      rintro (hfalse | hle0)
      · simp [jsIsFinite] at hfalse
      · exact absurd hle0 (not_le.mpr h2)
    have hlo : lineOptions color ((max 1 (min 256 (jsMathRound (pxToPoints px))) : ℤ) : ℚ)
        dashType =
        some
          { color := (match color with | some c => c.hex | none => 0)
            width := ((max 1 (min 256 (jsMathRound (pxToPoints px))) : ℤ) : ℚ)
            dashType := dashType
            transparency :=
              alphaToTransparency (match color with | some c => c.alpha | none => 1) } := by
      unfold lineOptions
      rw [if_neg hcond]
    exact ⟨_, hlo,
      show (1 : ℚ) ≤ ((max 1 (min 256 (jsMathRound (pxToPoints px))) : ℤ) : ℚ) from
        by exact_mod_cast h1⟩

/-- Claim C6, witness: a declared `stroke-width` of one pixel converts to
exactly 9525 EMU, which sits at the threshold, so the stroke is
suppressed. -/
theorem strokeWidth_threshold_witness :
    declaredPxWidth styleStrokeAtLimit = some 1 ∧
    ((pxToEmu 1 ≤ STROKE_LIMIT →
      resolveBorderWidth styleStrokeAtLimit = 0 ∧
      lineOptions none (resolveBorderWidth styleStrokeAtLimit) "solid" = none) ∧
    (STROKE_LIMIT < pxToEmu 1 →
      ∃ l : LineStyle, lineOptions none (resolveBorderWidth styleStrokeAtLimit) "solid" = some l ∧
        1 ≤ l.width)) :=
  ⟨by norm_num [declaredPxWidth, styleStrokeAtLimit, List.find?],
    strokeWidth_threshold styleStrokeAtLimit none "solid" 1
      (by norm_num [declaredPxWidth, styleStrokeAtLimit, List.find?])⟩

/-- Claim C7: the box-versus-vector precedence tie-break uses visibility
(alpha strictly positive) of the composed box color: an element in the
vector tag set (TEXT/RECT/G), or any element whose background color has
alpha `0`, resolves its fill to the vector fill paint. -/
theorem fill_precedence_visibility (tagName : String) (style : ComputedStyle)
    (h : SVG_ELEMENTS.contains tagName = true ∨ style.backgroundColor.alpha = 0) :
    (resolveColors tagName style).fill = vectorFillPaint style := by
  rcases h with hsvg | halpha
  · have hc : ¬ ((! SVG_ELEMENTS.contains tagName &&
        hasVisibleColor
          (some (applyOpacity (some style.backgroundColor) (parseOpacity style.opacity)))) =
          true) := by
      rw [hsvg]
      simp
    rw [resolveColors_fill, if_neg hc]
  · have hzero : (applyOpacity (some style.backgroundColor) (parseOpacity style.opacity)).alpha =
        0 := by
      unfold applyOpacity
      simp only [Option.getD_some, halpha, zero_mul]
      rw [min_eq_right (by norm_num : (0 : ℚ) ≤ 1), max_self]
    have hc : ¬ ((! SVG_ELEMENTS.contains tagName &&
        hasVisibleColor
          (some (applyOpacity (some style.backgroundColor) (parseOpacity style.opacity)))) =
          true) := by
      intro hcontra
      obtain ⟨-, hvis⟩ := Bool.and_eq_true_iff.mp hcontra
      simp [hasVisibleColor, hzero] at hvis
    rw [resolveColors_fill, if_neg hc]

/-- Claim C7, witness: a `div` (not a vector tag) with a zero-alpha
background and an opaque fill resolves its fill to the vector paint. -/
theorem fill_precedence_visibility_witness :
    (SVG_ELEMENTS.contains "DIV" = true ∨ styleInvisibleBg.backgroundColor.alpha = 0) ∧
    (resolveColors "DIV" styleInvisibleBg).fill = vectorFillPaint styleInvisibleBg :=
  ⟨Or.inr rfl, fill_precedence_visibility "DIV" styleInvisibleBg (Or.inr rfl)⟩

/-- Claim C8, counterexample: for a `div` with an opaque background, an
opaque fill and `fill-opacity: 0.5`, the resolved fill is the background
and its composed alpha is `1`, while the claimed product
colorAlpha * ownOpacity * fillOpacity equals `1/2` for either candidate
color, so the composed alpha is not that product. -/
theorem alpha_composition_counterexample :
    (resolveColors "DIV" styleBoxWinsHalfFillOpacity).fill.alpha = 1 ∧
    styleBoxWinsHalfFillOpacity.backgroundColor.alpha *
        parseOpacity styleBoxWinsHalfFillOpacity.opacity *
        parseOpacity styleBoxWinsHalfFillOpacity.fillOpacity = 1 / 2 ∧
    styleBoxWinsHalfFillOpacity.fill.alpha *
        parseOpacity styleBoxWinsHalfFillOpacity.opacity *
        parseOpacity styleBoxWinsHalfFillOpacity.fillOpacity = 1 / 2 ∧
    (1 : ℚ) ≠ 1 / 2 := by
  have hbg : (applyOpacity (some styleBoxWinsHalfFillOpacity.backgroundColor)
      (parseOpacity styleBoxWinsHalfFillOpacity.opacity)).alpha = 1 := by
    norm_num [applyOpacity, parseOpacity, styleBoxWinsHalfFillOpacity]
  have hcond : (! SVG_ELEMENTS.contains "DIV" &&
      hasVisibleColor
        (some (applyOpacity (some styleBoxWinsHalfFillOpacity.backgroundColor)
          (parseOpacity styleBoxWinsHalfFillOpacity.opacity)))) = true := by
    have hdiv : SVG_ELEMENTS.contains "DIV" = false := by decide
    rw [hdiv, hasVisibleColor, hbg]
    norm_num
  refine ⟨?_, ?_, ?_, by norm_num⟩
  · rw [resolveColors_fill, if_pos hcond, hbg]
  · norm_num [parseOpacity, styleBoxWinsHalfFillOpacity]
  · norm_num [parseOpacity, styleBoxWinsHalfFillOpacity]

/-- Claim C8 (amended): the vector fill and stroke paints compose their
alpha strictly multiplicatively, colorAlpha * ownOpacity *
fill-opacity / stroke-opacity with unparsable factors defaulting to `1` and each
factor clamped to `[0, 1]`; the resolved fill (resp. stroke) is either
that vector paint, or - when a visible box color wins precedence on a
non-vector tag - the box color, whose composed alpha is
colorAlpha * ownOpacity with no fill-opacity / stroke-opacity factor. -/
theorem alpha_composition_amended (tagName : String) (style : ComputedStyle)
    (hf0 : 0 ≤ style.fill.alpha) (hf1 : style.fill.alpha ≤ 1)
    (hs0 : 0 ≤ style.stroke.alpha) (hs1 : style.stroke.alpha ≤ 1)
    (hb0 : 0 ≤ style.backgroundColor.alpha) (hb1 : style.backgroundColor.alpha ≤ 1)
    (hc0 : 0 ≤ style.borderColor.alpha) (hc1 : style.borderColor.alpha ≤ 1) :
    (vectorFillPaint style).alpha =
      style.fill.alpha * parseOpacity style.opacity * parseOpacity style.fillOpacity ∧
    (vectorStrokePaint style).alpha =
      style.stroke.alpha * parseOpacity style.opacity * parseOpacity style.strokeOpacity ∧
    ((resolveColors tagName style).fill = vectorFillPaint style ∨
      (resolveColors tagName style).fill.alpha =
        style.backgroundColor.alpha * parseOpacity style.opacity) ∧
    ((resolveColors tagName style).stroke = vectorStrokePaint style ∨
      (resolveColors tagName style).stroke.alpha =
        style.borderColor.alpha * parseOpacity style.opacity) := by
  have ho0 := parseOpacity_nonneg style.opacity
  have ho1 := parseOpacity_le_one style.opacity
  have hfo0 := parseOpacity_nonneg style.fillOpacity
  have hfo1 := parseOpacity_le_one style.fillOpacity
  have hso0 := parseOpacity_nonneg style.strokeOpacity
  have hso1 := parseOpacity_le_one style.strokeOpacity
  have hfill : (vectorFillPaint style).alpha =
      style.fill.alpha * parseOpacity style.opacity * parseOpacity style.fillOpacity := by
    unfold vectorFillPaint applyOpacity
    simp only [Option.getD_some]
    rw [clamp01_eq_self (mul_nonneg hf0 (mul_nonneg hfo0 ho0))
      (mul_le_one₀ hf1 (mul_nonneg hfo0 ho0) (mul_le_one₀ hfo1 ho0 ho1))]
    ring
  have hstroke : (vectorStrokePaint style).alpha =
      style.stroke.alpha * parseOpacity style.opacity * parseOpacity style.strokeOpacity := by
    unfold vectorStrokePaint applyOpacity
    simp only [Option.getD_some]
    rw [clamp01_eq_self (mul_nonneg hs0 (mul_nonneg hso0 ho0))
      (mul_le_one₀ hs1 (mul_nonneg hso0 ho0) (mul_le_one₀ hso1 ho0 ho1))]
    ring
  refine ⟨hfill, hstroke, ?_, ?_⟩
  · by_cases hcond : (! SVG_ELEMENTS.contains tagName &&
        hasVisibleColor
          (some (applyOpacity (some style.backgroundColor) (parseOpacity style.opacity)))) = true
    · right
      rw [resolveColors_fill, if_pos hcond]
      unfold applyOpacity
      simp only [Option.getD_some]
      exact clamp01_eq_self (mul_nonneg hb0 ho0) (mul_le_one₀ hb1 ho0 ho1)
    · left
      rw [resolveColors_fill, if_neg hcond]
  · by_cases hcond : (! SVG_ELEMENTS.contains tagName &&
        hasVisibleColor
          (some (applyOpacity (some style.borderColor) (parseOpacity style.opacity)))) = true
    · right
      rw [resolveColors_stroke, if_pos hcond]
      unfold applyOpacity
      simp only [Option.getD_some]
      exact clamp01_eq_self (mul_nonneg hc0 ho0) (mul_le_one₀ hc1 ho0 ho1)
    · left
      rw [resolveColors_stroke, if_neg hcond]

/-- Claim C8, witness: a `rect` whose fill color has alpha `0.5` under an
element opacity of `0.5` composes to alpha `0.25`. -/
theorem alpha_composition_amended_witness :
    (0 ≤ styleQuarterAlphaFill.fill.alpha ∧ styleQuarterAlphaFill.fill.alpha ≤ 1 ∧
      0 ≤ styleQuarterAlphaFill.stroke.alpha ∧ styleQuarterAlphaFill.stroke.alpha ≤ 1 ∧
      0 ≤ styleQuarterAlphaFill.backgroundColor.alpha ∧
      styleQuarterAlphaFill.backgroundColor.alpha ≤ 1 ∧
      0 ≤ styleQuarterAlphaFill.borderColor.alpha ∧
      styleQuarterAlphaFill.borderColor.alpha ≤ 1) ∧
    ((vectorFillPaint styleQuarterAlphaFill).alpha =
      styleQuarterAlphaFill.fill.alpha * parseOpacity styleQuarterAlphaFill.opacity *
        parseOpacity styleQuarterAlphaFill.fillOpacity ∧
    (vectorStrokePaint styleQuarterAlphaFill).alpha =
      styleQuarterAlphaFill.stroke.alpha * parseOpacity styleQuarterAlphaFill.opacity *
        parseOpacity styleQuarterAlphaFill.strokeOpacity ∧
    ((resolveColors "RECT" styleQuarterAlphaFill).fill = vectorFillPaint styleQuarterAlphaFill ∨
      (resolveColors "RECT" styleQuarterAlphaFill).fill.alpha =
        styleQuarterAlphaFill.backgroundColor.alpha *
          parseOpacity styleQuarterAlphaFill.opacity) ∧
    ((resolveColors "RECT" styleQuarterAlphaFill).stroke =
        vectorStrokePaint styleQuarterAlphaFill ∨
      (resolveColors "RECT" styleQuarterAlphaFill).stroke.alpha =
        styleQuarterAlphaFill.borderColor.alpha *
          parseOpacity styleQuarterAlphaFill.opacity)) ∧
    (vectorFillPaint styleQuarterAlphaFill).alpha = 1 / 4 :=
  ⟨by norm_num [styleQuarterAlphaFill],
    alpha_composition_amended "RECT" styleQuarterAlphaFill
      (by norm_num [styleQuarterAlphaFill]) (by norm_num [styleQuarterAlphaFill])
      (by norm_num [styleQuarterAlphaFill]) (by norm_num [styleQuarterAlphaFill])
      (by norm_num [styleQuarterAlphaFill]) (by norm_num [styleQuarterAlphaFill])
      (by norm_num [styleQuarterAlphaFill]) (by norm_num [styleQuarterAlphaFill]),
    by norm_num [vectorFillPaint, applyOpacity, parseOpacity, styleQuarterAlphaFill]⟩

/-- Claim C9: for every radius input and bounding rectangle,
`#resolveRadius` returns a ratio in `[0, 0.05]` computed against the fixed
reference scale `1` - the result does not depend on the rectangle at all -
and an explicit radius of `40` pixels yields exactly
`min(0.05, 40 / (1/2)) = 0.05`. -/
theorem resolveRadius_range_fixed_reference (rx ry borderRadius : Option ℚ)
    (rect rect' : Option DomRect) :
    0 ≤ resolveRadius rx ry borderRadius rect ∧
    resolveRadius rx ry borderRadius rect ≤ 5 / 100 ∧
    resolveRadius rx ry borderRadius rect = resolveRadius rx ry borderRadius rect' ∧
    resolveRadius rx ry (some 40) rect = 5 / 100 ∧
    resolveRadius rx ry (some 40) rect = min (5 / 100 : ℚ) (40 / (1 / 2)) := by
  have key : ∀ (br : Option ℚ) (r : Option DomRect), resolveRadius rx ry br r =
      if radiusPx rx ry br ≤ 0 then 0
      else max 0 (min 1 (radiusPx rx ry br / (1 / 2))) * (5 / 100) := fun br r => rfl
  have h40 : radiusPx rx ry (some 40) = 40 := by
    unfold radiusPx
    norm_num
  refine ⟨?_, ?_, ?_, ?_, ?_⟩
  · rw [key]
    split_ifs
    · exact le_refl 0
    · exact mul_nonneg (le_max_left 0 _) (by norm_num)
  · rw [key]
    split_ifs
    · norm_num
    · have h1 : max 0 (min 1 (radiusPx rx ry borderRadius / (1 / 2))) ≤ 1 :=
        max_le zero_le_one (min_le_left _ _)
      calc max 0 (min 1 (radiusPx rx ry borderRadius / (1 / 2))) * (5 / 100) ≤ 1 * (5 / 100) :=
            mul_le_mul_of_nonneg_right h1 (by norm_num)
        _ = 5 / 100 := one_mul _
  · rw [key, key]
  · rw [key, h40]
    norm_num
  · rw [key, h40]
    norm_num

/-- Claim C10: for every computed style, the resolved stroke width is
either exactly `0` (suppressed) or an integer in the closed range
`[1, 256]`. -/
theorem resolveBorderWidth_range_invariant (style : ComputedStyle) :
    resolveBorderWidth style = 0 ∨
    ∃ n : ℤ, resolveBorderWidth style = (n : ℚ) ∧ 1 ≤ n ∧ n ≤ 256 := by
  rcases h : declaredPxWidth style with _ | px
  · left
    unfold resolveBorderWidth
    rw [h]
  · have hrw : resolveBorderWidth style =
        if pxToEmu px ≤ STROKE_LIMIT then 0
        else ((max 1 (min 256 (jsMathRound (pxToPoints px))) : ℤ) : ℚ) := by
      unfold resolveBorderWidth
      rw [h]
    rw [hrw]
    split_ifs with hle
    · exact Or.inl rfl
    · exact Or.inr ⟨max 1 (min 256 (jsMathRound (pxToPoints px))), rfl, le_max_left _ _,
        max_le (by norm_num) (min_le_left _ _)⟩

end HTML2PPTX
